import Mathlib

/-!
Shallow embedding of the PicoPannel DMX driver (`src/dmx.py`): the
`DMX_TX` and `DMX_RX` classes, their buffer (a Python `bytearray`),
their lifecycle operations (`start`, `pause`, `restart`,
`IRQ_from_PIO`), and their `__str__` diagnostic formatting.

Hardware objects (PIO state machine, DMA channel, timer) are modelled by
the observable effects the Python code produces on them: the state
machine's active flag, restart count and FIFO puts, the last
`SetChannelData` arming of the DMA channel, and the timer handle that
`start` creates as attribute `t`.
-/

namespace DMX

/-- Exceptions raised by the Python code (and the spec's name
`ConfigurationError` for the `ValueError` the size check raises). -/
inductive DmxError where
  | ConfigurationError
  | IndexError
  | ValueError
  | AttributeError
deriving DecidableEq, Repr

/-- One `SetChannelData(src, dst, count, trigger)` arming of a DMA channel. -/
structure DmaArm where
  src : Nat
  dst : Nat
  count : Nat
  trigger : Bool
deriving DecidableEq, Repr

/-- Observable state of a PIO state machine: `active(b)` flag, number of
`restart()` calls, and the values fed with `put`. -/
structure SmState where
  active : Bool
  restarts : Nat
  putValues : List Nat
deriving DecidableEq, Repr

/-- Timer handle created by `DMX_TX.start` (`self.t`); `deinit` clears
`running` but the attribute remains bound. -/
structure TimerH where
  period : Nat
  running : Bool
deriving DecidableEq, Repr

/-- PIO0 TX0 FIFO address used by `DMX_TX.restart`. -/
def PIO0_TX_FIFO : Nat := 0x50200010

/-- PIO1 RX FIFO address (+3) used by `DMX_RX.start` and `IRQ_from_PIO`. -/
def PIO1_RX_FIFO : Nat := 0x50200027

/-- Python index resolution for a sequence of length `n`: negative
indices count from the end; out-of-range resolution yields `none`. -/
def pyIndex (n : Nat) (i : Int) : Option Nat :=
  if i < 0 then
    if i + n < 0 then none else some (i + n).toNat
  else if i < (n : Int) then some i.toNat else none

namespace Bytearray

/-- Python `bytearray.__getitem__`: negative indices alias from the end;
resolution failure raises `IndexError`. -/
def getitem (b : List Nat) (i : Int) : Except DmxError Nat :=
  match pyIndex b.length i with
  | some j => .ok (b.getD j 0)
  | none => .error .IndexError

/-- Python `bytearray.__setitem__`: the value is range-checked first
(`ValueError` unless a byte), then the index is resolved
(`IndexError` on failure), as CPython does. -/
def setitem (b : List Nat) (i : Int) (v : Int) : Except DmxError (List Nat) :=
  if 0 ≤ v ∧ v ≤ 255 then
    match pyIndex b.length i with
    | some j => .ok (b.set j v.toNat)
    | none => .error .IndexError
  else .error .ValueError

end Bytearray

/-- State of a `DMX_TX` instance.  `bufBase` stands for
`addressof(self.channels)`; `t` is `none` while the attribute `self.t`
does not exist (before the first `start`). -/
structure DMX_TX where
  channels : List Nat
  bufBase : Nat
  sm : SmState
  dma : Option DmaArm
  t : Option TimerH
  timer_count : Nat
deriving DecidableEq, Repr

namespace DMX_TX

/-- Model of `DMX_TX.__init__`: rejects `universe_size` outside 1..512 with the
configuration error, otherwise allocates a zero-filled bytearray of
`universe_size+1` bytes and configures the SM and DMA channel. -/
def init (universe_size : Int := 512) (bufBase : Nat) : Except DmxError DMX_TX :=
  if universe_size < 1 ∨ universe_size > 512 then
    .error .ConfigurationError
  else
    .ok { channels := List.replicate (universe_size + 1).toNat 0
          bufBase := bufBase
          sm := { active := false, restarts := 0, putValues := [] }
          dma := none
          t := none
          timer_count := 0 }

/-- Model of `DMX_TX.start(period)`: sets `timer_count = 0` and creates the timer
`self.t`. -/
def start (tx : DMX_TX) (period : Nat := 50) : DMX_TX :=
  { tx with timer_count := 0, t := some { period := period, running := true } }

/-- Model of `DMX_TX.pause`: `self.t.deinit()` then `self._sm.active(0)`.  If
`start` has never been called, `self.t` does not exist and the attribute
lookup raises `AttributeError` before anything is mutated. -/
def pause (tx : DMX_TX) : Except DmxError DMX_TX :=
  match tx.t with
  | none => .error .AttributeError
  | some tm =>
      .ok { tx with t := some { tm with running := false }
                    sm := { tx.sm with active := false } }

/-- Model of `DMX_TX.restart` (the timer callback): `sm.active(1)`,
`sm.restart()`, re-arm the DMA from the buffer base to the PIO0 TX FIFO
for `len(self.channels)` transfers, and `timer_count += 1`. -/
def restart (tx : DMX_TX) : DMX_TX :=
  { tx with sm := { tx.sm with active := true, restarts := tx.sm.restarts + 1 }
            dma := some { src := tx.bufBase, dst := PIO0_TX_FIFO
                          count := tx.channels.length, trigger := true }
            timer_count := tx.timer_count + 1 }

/-- Application-level channel write through the bytearray interface. -/
def writeChannel (tx : DMX_TX) (i v : Int) : Except DmxError DMX_TX :=
  (Bytearray.setitem tx.channels i v).map fun c => { tx with channels := c }

end DMX_TX

/-- State of a `DMX_RX` instance.  `bufBase` stands for
`addressof(self.channels)`. -/
structure DMX_RX where
  channels : List Nat
  bufBase : Nat
  sm : SmState
  dma : Option DmaArm
  frames_received : Nat
deriving DecidableEq, Repr

namespace DMX_RX

/-- Model of `DMX_RX.__init__`: allocates a bytearray of `num_channels+1` zero
bytes, configures SM and DMA, sets `frames_received = 0`.  NOTE: unlike
`DMX_TX.__init__`, the source performs no validation of `num_channels`
(for a negative value, Python's `range(num_channels+1)` is empty). -/
def init (num_channels : Int := 512) (bufBase : Nat) : DMX_RX :=
  { channels := List.replicate (num_channels + 1).toNat 0
    bufBase := bufBase
    sm := { active := false, restarts := 0, putValues := [] }
    dma := none
    frames_received := 0 }

/-- Model of `DMX_RX.start`: arm the DMA from the PIO1 RX FIFO into the buffer
base for `len(self.channels)` transfers, `sm.restart()`,
`sm.put(len(self.channels)-1)`, `sm.active(1)`. -/
def start (rx : DMX_RX) : DMX_RX :=
  { rx with dma := some { src := PIO1_RX_FIFO, dst := rx.bufBase
                          count := rx.channels.length, trigger := true }
            sm := { active := true
                    restarts := rx.sm.restarts + 1
                    putValues := rx.sm.putValues ++ [rx.channels.length - 1] } }

/-- Model of `DMX_RX.pause`: `self._sm.active(0)` only. -/
def pause (rx : DMX_RX) : DMX_RX :=
  { rx with sm := { rx.sm with active := false } }

/-- Model of `DMX_RX.IRQ_from_PIO` (frame-boundary interrupt handler): re-arm the
DMA from the PIO1 RX FIFO into the buffer base for
`len(self.channels)` transfers, and `frames_received += 1`. -/
def IRQ_from_PIO (rx : DMX_RX) : DMX_RX :=
  { rx with dma := some { src := PIO1_RX_FIFO, dst := rx.bufBase
                          count := rx.channels.length, trigger := true }
            frames_received := rx.frames_received + 1 }

end DMX_RX

/-! Diagnostic formatting (`__str__` of both classes). -/

/-- Decimal digit character. -/
def digitChar (d : Nat) : Char := Char.ofNat (48 + d)

/-- Python `f"{n:03}"` for `n < 1000`: exactly three digits, zero padded. -/
def pyFmt03 (n : Nat) : String :=
  String.mk [digitChar (n / 100), digitChar (n / 10 % 10), digitChar (n % 10)]

/-- Python `f"{n:3}"` for `n < 1000`: right-justified in width 3, space
padded. -/
def pyFmtW3 (n : Nat) : String :=
  if n < 10 then String.mk [' ', ' ', digitChar n]
  else if n < 100 then String.mk [' ', digitChar (n / 10), digitChar (n % 10)]
  else pyFmt03 n

/-- Python `str(n)` for `n < 1000`: unpadded decimal. -/
def pyRepr (n : Nat) : String :=
  if n < 10 then String.mk [digitChar n]
  else if n < 100 then String.mk [digitChar (n / 10), digitChar (n % 10)]
  else pyFmt03 n

/-- One loop iteration of `DMX_TX.__str__`: row header every 20
channels, double space every 5, `"Start code: v"` replaces the
accumulator at channel 0, values printed `f" {v:3}"` (leading space),
blank line every 100. -/
def strChunkTX (chans : List Nat) (chan : Nat) (acc : String) : String :=
  let acc := if chan % 20 == 1 then acc ++ "\n" ++ pyFmt03 chan ++ ":" else acc
  let acc := if chan % 5 == 1 then acc ++ "  " else acc
  let acc := if chan == 0 then "Start code: " ++ pyRepr (chans.getD chan 0)
             else acc ++ " " ++ pyFmtW3 (chans.getD chan 0)
  if chan % 100 == 0 then acc ++ "\n" else acc

/-- One loop iteration of `DMX_RX.__str__`: identical to the TX version
except that values are printed `f"{v:3}"`, without the leading space. -/
def strChunkRX (chans : List Nat) (chan : Nat) (acc : String) : String :=
  let acc := if chan % 20 == 1 then acc ++ "\n" ++ pyFmt03 chan ++ ":" else acc
  let acc := if chan % 5 == 1 then acc ++ "  " else acc
  let acc := if chan == 0 then "Start code: " ++ pyRepr (chans.getD chan 0)
             else acc ++ pyFmtW3 (chans.getD chan 0)
  if chan % 100 == 0 then acc ++ "\n" else acc

/-- Model of `DMX_TX.__str__` over the channel list. -/
def txStr (chans : List Nat) : String :=
  (List.range chans.length).foldl (fun acc chan => strChunkTX chans chan acc) "" ++ "\n"

/-- Model of `DMX_RX.__str__` over the channel list. -/
def rxStr (chans : List Nat) : String :=
  (List.range chans.length).foldl (fun acc chan => strChunkRX chans chan acc) "" ++ "\n"

/-! Operation sequences for the buffer invariant: every way the Python
code (application calls, timer callback, IRQ handler, per-byte DMA
stores) touches a driver instance after construction. -/

/-- Operations on a `DMX_TX` after construction. -/
inductive TxOp where
  | start (period : Nat)
  | pause
  | restart
  | write (i v : Int)
deriving DecidableEq, Repr

/-- Effect of one `TxOp`; a raised exception leaves the state
unchanged (it propagates to the caller before any mutation). -/
def stepTx (tx : DMX_TX) : TxOp → DMX_TX
  | .start p => tx.start p
  | .pause => match tx.pause with | .ok tx' => tx' | .error _ => tx
  | .restart => tx.restart
  | .write i v => match tx.writeChannel i v with | .ok tx' => tx' | .error _ => tx

/-- A sequence of transmitter operations, applied left to right. -/
def applyTxOps (ops : List TxOp) (tx : DMX_TX) : DMX_TX :=
  ops.foldl stepTx tx

/-- Operations on a `DMX_RX` after construction, including the
hardware DMA storing one received byte (always a value in 0..255, and
never past the armed transfer count, which is at most the buffer
length). -/
inductive RxOp where
  | start
  | pause
  | irq
  | write (i v : Int)
  | dmaByte (j v : Nat)
deriving DecidableEq, Repr

/-- Effect of one `RxOp`; a raised exception leaves the state
unchanged; a DMA store writes one byte (reduced mod 256 — the PIO FIFO
only ever delivers bytes) at an in-range position. -/
def stepRx (rx : DMX_RX) : RxOp → DMX_RX
  | .start => rx.start
  | .pause => rx.pause
  | .irq => DMX_RX.IRQ_from_PIO rx
  | .write i v =>
      match Bytearray.setitem rx.channels i v with
      | .ok c => { rx with channels := c }
      | .error _ => rx
  | .dmaByte j v =>
      if j < rx.channels.length then { rx with channels := rx.channels.set j (v % 256) }
      else rx

/-- A sequence of receiver operations, applied left to right. -/
def applyRxOps (ops : List RxOp) (rx : DMX_RX) : DMX_RX :=
  ops.foldl stepRx rx

end DMX
namespace DMX

/-- The string appended by one iteration of `DMX_TX.__str__` for `chan ≠ 0`. -/
def pieceTX (chans : List Nat) (chan : Nat) : String :=
  (if chan % 20 == 1 then "\n" ++ pyFmt03 chan ++ ":" else "")
  ++ (if chan % 5 == 1 then "  " else "")
  ++ (" " ++ pyFmtW3 (chans.getD chan 0))
  ++ (if chan % 100 == 0 then "\n" else "")

/-- The string appended by one iteration of `DMX_RX.__str__` for `chan ≠ 0`. -/
def pieceRX (chans : List Nat) (chan : Nat) : String :=
  (if chan % 20 == 1 then "\n" ++ pyFmt03 chan ++ ":" else "")
  ++ (if chan % 5 == 1 then "  " else "")
  ++ pyFmtW3 (chans.getD chan 0)
  ++ (if chan % 100 == 0 then "\n" else "")

/-- Concatenation of a list of strings. -/
def strJoin : List String → String
  | [] => ""
  | s :: rest => s ++ strJoin rest

theorem strChunkTX_ne_zero (chans : List Nat) (chan : Nat) (acc : String) (h : chan ≠ 0) :
    strChunkTX chans chan acc = acc ++ pieceTX chans chan := by
  have h0 : (chan == 0) = false := by simp [h]
  unfold strChunkTX pieceTX
  simp only [h0, Bool.false_eq_true, if_false]
  split <;> split <;> split <;>
    simp only [String.append_assoc, String.append_empty, String.empty_append]

theorem strChunkRX_ne_zero (chans : List Nat) (chan : Nat) (acc : String) (h : chan ≠ 0) :
    strChunkRX chans chan acc = acc ++ pieceRX chans chan := by
  have h0 : (chan == 0) = false := by simp [h]
  unfold strChunkRX pieceRX
  simp only [h0, Bool.false_eq_true, if_false]
  split <;> split <;> split <;>
    simp only [String.append_assoc, String.append_empty, String.empty_append]

theorem foldl_chunk_eq_join (step : Nat → String → String) (f : Nat → String) :
    ∀ (l : List Nat) (a : String), (∀ c ∈ l, ∀ acc, step c acc = acc ++ f c) →
      l.foldl (fun acc c => step c acc) a = a ++ strJoin (l.map f)
  | [], a, _ => by simp [strJoin]
  | c :: l, a, h => by
      simp only [List.foldl_cons, List.map_cons, strJoin]
      rw [h c (by simp),
          foldl_chunk_eq_join step f l (a ++ f c) (fun d hd acc => h d (by simp [hd]) acc),
          String.append_assoc]

theorem txStr_decomp (chans : List Nat) (n : Nat) (h : chans.length = n + 1) :
    txStr chans = ("Start code: " ++ pyRepr (chans.getD 0 0) ++ "\n")
      ++ strJoin ((List.range' 1 n).map (pieceTX chans)) ++ "\n" := by
  unfold txStr
  rw [h, List.range_eq_range', List.range'_succ]
  simp only [List.foldl_cons]
  have h0 : strChunkTX chans 0 "" = "Start code: " ++ pyRepr (chans.getD 0 0) ++ "\n" := rfl
  rw [h0, foldl_chunk_eq_join _ (pieceTX chans)]
  intro c hc acc
  exact strChunkTX_ne_zero chans c acc (by
    rcases List.mem_range'.1 hc with ⟨i, hi, rfl⟩
    omega)

theorem rxStr_decomp (chans : List Nat) (n : Nat) (h : chans.length = n + 1) :
    rxStr chans = ("Start code: " ++ pyRepr (chans.getD 0 0) ++ "\n")
      ++ strJoin ((List.range' 1 n).map (pieceRX chans)) ++ "\n" := by
  unfold rxStr
  rw [h, List.range_eq_range', List.range'_succ]
  simp only [List.foldl_cons]
  have h0 : strChunkRX chans 0 "" = "Start code: " ++ pyRepr (chans.getD 0 0) ++ "\n" := rfl
  rw [h0, foldl_chunk_eq_join _ (pieceRX chans)]
  intro c hc acc
  exact strChunkRX_ne_zero chans c acc (by
    rcases List.mem_range'.1 hc with ⟨i, hi, rfl⟩
    omega)

theorem strJoin_length : ∀ l : List String, (strJoin l).length = (l.map String.length).sum
  | [] => rfl
  | s :: rest => by simp [strJoin, strJoin_length rest]

theorem pieceTX_length (chans : List Nat) (chan : Nat) :
    (pieceTX chans chan).length = (pieceRX chans chan).length + 1 := by
  unfold pieceTX pieceRX
  have h1 : (" " : String).length = 1 := rfl
  split <;> split <;> split <;>
    (simp only [String.length_append, h1]; omega)

theorem sum_map_succ_each (f g : Nat → Nat) (h : ∀ c, f c = g c + 1) :
    ∀ l : List Nat, (l.map f).sum = (l.map g).sum + l.length
  | [] => rfl
  | c :: l => by
      simp only [List.map_cons, List.sum_cons, List.length_cons, h c,
        sum_map_succ_each f g h l]
      omega

theorem txStr_length_eq (chans : List Nat) (n : Nat) (h : chans.length = n + 1) :
    (txStr chans).length = (rxStr chans).length + n := by
  rw [txStr_decomp chans n h, rxStr_decomp chans n h]
  simp only [String.length_append, strJoin_length, List.map_map]
  rw [sum_map_succ_each (String.length ∘ pieceTX chans)
        (String.length ∘ pieceRX chans) (fun c => pieceTX_length chans c)]
  simp [List.length_range']
  omega

end DMX
namespace DMX

/-- Scenario of §8: transmitter with `universe_size=5`, channels 1..5
set to `[10,20,30,40,50]`, `start(period_ms=20)`, then two timer ticks. -/
def scenarioTX : Except DmxError DMX_TX := do
  let tx ← DMX_TX.init 5 0
  let tx ← tx.writeChannel 1 10
  let tx ← tx.writeChannel 2 20
  let tx ← tx.writeChannel 3 30
  let tx ← tx.writeChannel 4 40
  let tx ← tx.writeChannel 5 50
  let tx := tx.start 20
  pure tx.restart.restart

theorem frames_iterate (k : Nat) :
    ∀ r : DMX_RX, ( DMX_RX.IRQ_from_PIO^[k] r).frames_received = r.frames_received + k := by
  induction k with
  | zero => intro r; simp
  | succ k ih =>
      intro r
      rw [Function.iterate_succ_apply, ih]
      simp [ DMX_RX.IRQ_from_PIO]
      omega

/-- C1: for a receiver whose buffer has `size+1` bytes, each
frame-boundary interrupt re-arms the DMA for `size+1` transfers with
destination the buffer base and increments `frames_received` by exactly
1; over any numbers of completed frames the counter is non-decreasing. -/
theorem C1_irq_frame_counter (rx : DMX_RX) (s : Nat) (h : rx.channels.length = s + 1) :
    ( DMX_RX.IRQ_from_PIO rx).dma
        = some { src := PIO1_RX_FIFO, dst := rx.bufBase, count := s + 1, trigger := true }
  ∧ ( DMX_RX.IRQ_from_PIO rx).frames_received = rx.frames_received + 1
  ∧ ∀ n m : Nat, n ≤ m →
      ( DMX_RX.IRQ_from_PIO^[n] rx).frames_received
        ≤ ( DMX_RX.IRQ_from_PIO^[m] rx).frames_received := by
  refine ⟨by simp [ DMX_RX.IRQ_from_PIO, h], rfl, ?_⟩
  intro n m hnm
  rw [frames_iterate n rx, frames_iterate m rx]
  omega

theorem C1_irq_witness :
    ((DMX_RX.init 5 0).start).channels.length = 5 + 1
  ∧ ( DMX_RX.IRQ_from_PIO ((DMX_RX.init 5 0).start)).frames_received
      = ((DMX_RX.init 5 0).start).frames_received + 1 :=
  ⟨by decide, (C1_irq_frame_counter ((DMX_RX.init 5 0).start) 5 (by decide)).2.1⟩

/-- C2: each timer tick reactivates and restarts the SM, re-arms the DMA
to stream the whole buffer from the buffer base to the fixed PIO0 TX
FIFO address, increments `timer_count` by 1 and leaves the buffer
unchanged; in the §8 scenario, after two ticks `timer_count = 2` and the
buffer still holds its pre-start contents. -/
theorem C2_tx_tick :
    (∀ tx : DMX_TX,
        tx.restart.sm.active = true
      ∧ tx.restart.sm.restarts = tx.sm.restarts + 1
      ∧ tx.restart.dma = some { src := tx.bufBase, dst := PIO0_TX_FIFO,
                                count := tx.channels.length, trigger := true }
      ∧ tx.restart.timer_count = tx.timer_count + 1
      ∧ tx.restart.channels = tx.channels)
  ∧ scenarioTX.map (fun tx => (tx.timer_count, tx.channels))
      = .ok (2, [0, 10, 20, 30, 40, 50]) :=
  ⟨fun _ => ⟨rfl, rfl, rfl, rfl, rfl⟩, rfl⟩

/-- C3 (code bug): `DMX_RX.__init__` performs no `num_channels`
validation, so at `num_channels = 513` (and `0`) construction succeeds
and yields an instance, while `DMX_TX.__init__` rejects 513 with the
configuration error. -/
theorem C3_rx_no_validation :
    (DMX_RX.init 513 0).channels.length = 514
  ∧ (DMX_RX.init 0 0).channels.length = 1
  ∧ (DMX_RX.init 513 0).frames_received = 0
  ∧ DMX_TX.init 513 0 = .error .ConfigurationError := by
  refine ⟨?_, ?_, rfl, rfl⟩
  · simp only [DMX_RX.init, List.length_replicate]
    rfl
  · simp only [DMX_RX.init, List.length_replicate]
    rfl

/-- C5: transmitter construction with `universe_size = s` in [1,512]
yields a zero-filled buffer of exactly `s+1` bytes; for `s` outside
[1,512] it fails with the configuration error. -/
theorem C5_tx_create (s : Int) (base : Nat) :
    (1 ≤ s → s ≤ 512 →
      (DMX_TX.init s base).map DMX_TX.channels = .ok (List.replicate (s.toNat + 1) 0))
  ∧ (s < 1 ∨ 512 < s → DMX_TX.init s base = .error .ConfigurationError) := by
  constructor
  · intro h1 h2
    have ht : (s + 1).toNat = s.toNat + 1 := by omega
    unfold DMX_TX.init
    rw [if_neg (by omega), ht]
    rfl
  · intro h
    unfold DMX_TX.init
    rw [if_pos (by omega)]

theorem C5_tx_create_witness :
    ((1 : Int) ≤ 5 ∧ (5 : Int) ≤ 512
      ∧ (DMX_TX.init 5 0).map DMX_TX.channels = .ok (List.replicate 6 0))
  ∧ ((0 : Int) < 1 ∧ DMX_TX.init 0 0 = .error .ConfigurationError) :=
  ⟨⟨by decide, by decide, (C5_tx_create 5 0).1 (by decide) (by decide)⟩,
   by decide, (C5_tx_create 0 0).2 (Or.inl (by decide))⟩

/-- C7: `pause` on a receiver deactivates the SM only (counter, buffer,
DMA arming, restart count, FIFO puts unchanged); `start` after `pause`
does not reset `frames_received`, and subsequent completed frames
continue counting from the old value. -/
theorem C7_pause_resume (rx : DMX_RX) :
    rx.pause.frames_received = rx.frames_received
  ∧ rx.pause.channels = rx.channels
  ∧ rx.pause.dma = rx.dma
  ∧ rx.pause.sm.active = false
  ∧ rx.pause.sm.restarts = rx.sm.restarts
  ∧ rx.pause.sm.putValues = rx.sm.putValues
  ∧ rx.pause.start.frames_received = rx.frames_received
  ∧ ∀ k : Nat, ( DMX_RX.IRQ_from_PIO^[k] rx.pause.start).frames_received
      = rx.frames_received + k := by
  refine ⟨rfl, rfl, rfl, rfl, rfl, rfl, rfl, ?_⟩
  intro k
  rw [frames_iterate k]
  rfl

/-- C10: on a transmitter on which `start` has never been called, `pause`
raises `AttributeError` (`self.t` does not exist); after any `start`,
`pause` succeeds. -/
theorem C10_pause_before_start (s : Int) (base : Nat) (tx : DMX_TX)
    (h : DMX_TX.init s base = .ok tx) :
    tx.pause = .error .AttributeError
  ∧ ∀ p : Nat, ∃ tx', (tx.start p).pause = .ok tx' := by
  have ht : tx.t = none := by
    unfold DMX_TX.init at h
    split at h
    · cases h
    · cases h; rfl
  constructor
  · unfold DMX_TX.pause
    rw [ht]
  · intro p
    exact ⟨_, rfl⟩

theorem C10_pause_witness :
    (DMX_TX.init 5 0
        = .ok { channels := List.replicate 6 0, bufBase := 0,
                sm := { active := false, restarts := 0, putValues := [] },
                dma := none, t := none, timer_count := 0 })
  ∧ ({ channels := List.replicate 6 0, bufBase := 0,
       sm := { active := false, restarts := 0, putValues := [] },
       dma := none, t := none, timer_count := 0 } : DMX_TX).pause
      = .error .AttributeError :=
  ⟨rfl, (C10_pause_before_start 5 0 _ rfl).1⟩

end DMX
namespace DMX

/-- C4 counterexample: on the 2-byte buffer of a size-1 universe,
reading index `-1` returns the last byte instead of raising
`IndexError` (Python negative indexing), so not every index outside
`[0,size]` fails. -/
theorem C4_negative_index_counterexample :
    Bytearray.getitem [0, 0] (-1) = .ok 0
  ∧ Bytearray.getitem [0, 0] (-1) ≠ .error DmxError.IndexError := by
  constructor
  · rfl
  · intro h
    cases h

/-- C4 (amended): for a buffer of `s+1` bytes, reads and byte-valued
writes at `i > s` or `i < -(s+1)` fail with `IndexError`; a negative
index in `[-(s+1), -1]` does not fail but aliases `i + s + 1`. -/
theorem C4_bounds (s : Nat) (b : List Nat) (i : Int) (hb : b.length = s + 1) :
    ((s : Int) < i ∨ i < -((s : Int) + 1) →
      Bytearray.getitem b i = .error .IndexError
      ∧ ∀ v : Int, 0 ≤ v → v ≤ 255 → Bytearray.setitem b i v = .error .IndexError)
  ∧ (-((s : Int) + 1) ≤ i → i < 0 →
      Bytearray.getitem b i = Bytearray.getitem b (i + (s : Int) + 1)) := by
  constructor
  · intro hout
    have hnone : pyIndex b.length i = none := by
      unfold pyIndex
      rw [hb]
      rcases hout with h | h
      · rw [if_neg (by omega), if_neg (by push_cast; omega)]
      · rw [if_pos (by omega), if_pos (by push_cast; omega)]
    refine ⟨?_, ?_⟩
    · unfold Bytearray.getitem
      rw [hnone]
    · intro v hv0 hv255
      unfold Bytearray.setitem
      rw [if_pos ⟨hv0, hv255⟩, hnone]
  · intro hge hlt
    have h1 : pyIndex b.length i = some (i + (s : Int) + 1).toNat := by
      unfold pyIndex
      rw [hb, if_pos hlt, if_neg (by push_cast; omega)]
      congr 1
      push_cast
      omega
    have h2 : pyIndex b.length (i + (s : Int) + 1) = some (i + (s : Int) + 1).toNat := by
      unfold pyIndex
      rw [hb, if_neg (by omega), if_pos (by push_cast; omega)]
    unfold Bytearray.getitem
    rw [h1, h2]

theorem C4_bounds_witness :
    ([0, 0] : List Nat).length = 1 + 1
  ∧ Bytearray.getitem [0, 0] 2 = .error .IndexError
  ∧ Bytearray.getitem [0, 0] (-1) = Bytearray.getitem [0, 0] ((-1) + (1 : Nat) + 1) :=
  ⟨rfl, ((C4_bounds 1 [0, 0] 2 rfl).1 (Or.inl (by decide))).1,
   (C4_bounds 1 [0, 0] (-1) rfl).2 (by decide) (by decide)⟩

/-- C8: writing byte `v` at an in-range index `i` succeeds, reading `i`
back returns `v`, and every other position is unchanged. -/
theorem C8_write_read (s : Nat) (b : List Nat) (i v : Nat)
    (hb : b.length = s + 1) (hi : i ≤ s) (hv : v ≤ 255) :
    Bytearray.setitem b i v = .ok (b.set i v)
  ∧ Bytearray.getitem (b.set i v) i = .ok v
  ∧ ∀ j : Nat, j ≠ i → Bytearray.getitem (b.set i v) j = Bytearray.getitem b j := by
  have hilt : i < b.length := by omega
  have hsome : pyIndex b.length i = some i := by
    unfold pyIndex
    rw [if_neg (by omega), if_pos (by exact_mod_cast hilt)]
    simp
  refine ⟨?_, ?_, ?_⟩
  · unfold Bytearray.setitem
    rw [if_pos ⟨by omega, by exact_mod_cast hv⟩, hsome]
    simp
  · have hsome' : pyIndex (b.set i v).length i = some i := by
      rw [List.length_set]
      exact hsome
    unfold Bytearray.getitem
    rw [hsome']
    show Except.ok ((b.set i v).getD i 0) = Except.ok v
    rw [List.getD_eq_getElem?_getD, List.getElem?_set_self hilt]
    rfl
  · intro j hj
    unfold Bytearray.getitem
    rw [List.length_set]
    cases hpy : pyIndex b.length (j : Int) with
    | none => rfl
    | some k =>
        have hk : k = j := by
          unfold pyIndex at hpy
          rw [if_neg (by omega)] at hpy
          split_ifs at hpy
          simp only [Option.some.injEq] at hpy
          omega
        subst hk
        show Except.ok ((b.set i v).getD k 0) = Except.ok (b.getD k 0)
        rw [List.getD_eq_getElem?_getD, List.getD_eq_getElem?_getD,
            List.getElem?_set_ne (by omega)]

theorem C8_write_read_witness :
    ([0, 0] : List Nat).length = 1 + 1 ∧ (1 : Nat) ≤ 1 ∧ (7 : Nat) ≤ 255
  ∧ Bytearray.setitem [0, 0] 1 7 = .ok [0, 7]
  ∧ Bytearray.getitem (([0, 0] : List Nat).set 1 7) 1 = .ok 7 :=
  ⟨rfl, by decide, by decide,
   (C8_write_read 1 [0, 0] 1 7 rfl (by decide) (by decide)).1,
   (C8_write_read 1 [0, 0] 1 7 rfl (by decide) (by decide)).2.1⟩

end DMX
namespace DMX

theorem setitem_ok_shape (b c : List Nat) (i v : Int)
    (h : Bytearray.setitem b i v = .ok c) :
    ∃ j w, w ≤ 255 ∧ c = b.set j w := by
  unfold Bytearray.setitem at h
  by_cases hv : 0 ≤ v ∧ v ≤ 255
  · rw [if_pos hv] at h
    cases hpy : pyIndex b.length i with
    | none => rw [hpy] at h; cases h
    | some j =>
        rw [hpy] at h
        injection h with h
        exact ⟨j, v.toNat, by omega, h.symm⟩
  · rw [if_neg hv] at h
    cases h

theorem mem_set_le (b : List Nat) (j w : Nat) (hw : w ≤ 255)
    (hval : ∀ x ∈ b, x ≤ 255) : ∀ x ∈ b.set j w, x ≤ 255 := by
  intro x hx
  rcases List.mem_or_eq_of_mem_set hx with h | h
  · exact hval x h
  · omega

theorem stepTx_channels (tx : DMX_TX) (op : TxOp) :
    (stepTx tx op).channels = tx.channels
  ∨ ∃ j w, w ≤ 255 ∧ (stepTx tx op).channels = tx.channels.set j w := by
  cases op with
  | start p => exact Or.inl rfl
  | restart => exact Or.inl rfl
  | pause =>
      simp only [stepTx]
      unfold DMX_TX.pause
      cases tx.t <;> exact Or.inl rfl
  | write i v =>
      simp only [stepTx]
      cases hset : tx.writeChannel i v with
      | error e => exact Or.inl rfl
      | ok tx' =>
          unfold DMX_TX.writeChannel at hset
          cases hset2 : Bytearray.setitem tx.channels i v with
          | error e => rw [hset2] at hset; cases hset
          | ok c =>
              rw [hset2] at hset
              injection hset with hset
              rcases setitem_ok_shape tx.channels c i v hset2 with ⟨j, w, hw, rfl⟩
              exact Or.inr ⟨j, w, hw, by rw [← hset]⟩

theorem stepRx_channels (rx : DMX_RX) (op : RxOp) :
    (stepRx rx op).channels = rx.channels
  ∨ ∃ j w, w ≤ 255 ∧ (stepRx rx op).channels = rx.channels.set j w := by
  cases op with
  | start => exact Or.inl rfl
  | pause => exact Or.inl rfl
  | irq => exact Or.inl rfl
  | write i v =>
      simp only [stepRx]
      cases hset : Bytearray.setitem rx.channels i v with
      | error e => exact Or.inl rfl
      | ok c =>
          rcases setitem_ok_shape rx.channels c i v hset with ⟨j, w, hw, rfl⟩
          exact Or.inr ⟨j, w, hw, rfl⟩
  | dmaByte j v =>
      simp only [stepRx]
      split
      · exact Or.inr ⟨j, v % 256, by omega, rfl⟩
      · exact Or.inl rfl

theorem stepTx_inv (tx : DMX_TX) (op : TxOp)
    (hval : ∀ w ∈ tx.channels, w ≤ 255) :
    (stepTx tx op).channels.length = tx.channels.length
  ∧ ∀ w ∈ (stepTx tx op).channels, w ≤ 255 := by
  rcases stepTx_channels tx op with h | ⟨j, w, hw, h⟩
  · rw [h]
    exact ⟨rfl, hval⟩
  · rw [h]
    exact ⟨List.length_set .., mem_set_le _ _ _ hw hval⟩

theorem stepRx_inv (rx : DMX_RX) (op : RxOp)
    (hval : ∀ w ∈ rx.channels, w ≤ 255) :
    (stepRx rx op).channels.length = rx.channels.length
  ∧ ∀ w ∈ (stepRx rx op).channels, w ≤ 255 := by
  rcases stepRx_channels rx op with h | ⟨j, w, hw, h⟩
  · rw [h]
    exact ⟨rfl, hval⟩
  · rw [h]
    exact ⟨List.length_set .., mem_set_le _ _ _ hw hval⟩

theorem applyTxOps_inv (ops : List TxOp) (tx : DMX_TX)
    (hval : ∀ w ∈ tx.channels, w ≤ 255) :
    (applyTxOps ops tx).channels.length = tx.channels.length
  ∧ ∀ w ∈ (applyTxOps ops tx).channels, w ≤ 255 := by
  induction ops generalizing tx with
  | nil => exact ⟨rfl, hval⟩
  | cons op ops ih =>
      have h1 := stepTx_inv tx op hval
      have h2 := ih (stepTx tx op) h1.2
      exact ⟨h2.1.trans h1.1, h2.2⟩

theorem applyRxOps_inv (ops : List RxOp) (rx : DMX_RX)
    (hval : ∀ w ∈ rx.channels, w ≤ 255) :
    (applyRxOps ops rx).channels.length = rx.channels.length
  ∧ ∀ w ∈ (applyRxOps ops rx).channels, w ≤ 255 := by
  induction ops generalizing rx with
  | nil => exact ⟨rfl, hval⟩
  | cons op ops ih =>
      have h1 := stepRx_inv rx op hval
      have h2 := ih (stepRx rx op) h1.2
      exact ⟨h2.1.trans h1.1, h2.2⟩

/-- C6: after construction with size `s`, any sequence of driver
operations (start/pause/restart/IRQ, application writes, per-byte DMA
stores) leaves the buffer length exactly `s+1` and every stored value a
valid byte, so a read at any point observes only in-range values. -/
theorem C6_buffer_invariant (s : Nat) (base : Nat) (tx : DMX_TX)
    (htx : DMX_TX.init (s : Int) base = .ok tx)
    (txOps : List TxOp) (rxOps : List RxOp) :
    ((applyTxOps txOps tx).channels.length = s + 1
      ∧ ∀ w ∈ (applyTxOps txOps tx).channels, w ≤ 255)
  ∧ ((applyRxOps rxOps (DMX_RX.init (s : Int) base)).channels.length = s + 1
      ∧ ∀ w ∈ (applyRxOps rxOps (DMX_RX.init (s : Int) base)).channels, w ≤ 255) := by
  have hcast : ((s : Int) + 1).toNat = s + 1 := by omega
  have htx0 : tx.channels = List.replicate (s + 1) 0 := by
    unfold DMX_TX.init at htx
    split at htx
    · cases htx
    · cases htx
      rw [hcast]
  have hrx0 : (DMX_RX.init (s : Int) base).channels = List.replicate (s + 1) 0 := by
    unfold DMX_RX.init
    rw [hcast]
  constructor
  · have h := applyTxOps_inv txOps tx (by
      intro w hw
      rw [htx0] at hw
      rw [List.eq_of_mem_replicate hw]
      omega)
    rw [htx0, List.length_replicate] at h
    exact h
  · have h := applyRxOps_inv rxOps (DMX_RX.init (s : Int) base) (by
      intro w hw
      rw [hrx0] at hw
      rw [List.eq_of_mem_replicate hw]
      omega)
    rw [hrx0, List.length_replicate] at h
    exact h

theorem C6_buffer_invariant_witness :
    (DMX_TX.init ((1 : Nat) : Int) 0
        = .ok { channels := List.replicate 2 0, bufBase := 0,
                sm := { active := false, restarts := 0, putValues := [] },
                dma := none, t := none, timer_count := 0 })
  ∧ ((applyTxOps [TxOp.write 1 9, TxOp.restart]
        { channels := List.replicate 2 0, bufBase := 0,
          sm := { active := false, restarts := 0, putValues := [] },
          dma := none, t := none, timer_count := 0 }).channels.length = 1 + 1
      ∧ ∀ w ∈ (applyTxOps [TxOp.write 1 9, TxOp.restart]
          { channels := List.replicate 2 0, bufBase := 0,
            sm := { active := false, restarts := 0, putValues := [] },
            dma := none, t := none, timer_count := 0 }).channels, w ≤ 255) :=
  ⟨rfl, (C6_buffer_invariant 1 0 _ rfl [TxOp.write 1 9, TxOp.restart]
    [RxOp.irq, RxOp.dmaByte 0 300]).1⟩

end DMX
namespace DMX

/-- C9 counterexample: on the freshly created 512-channel universe, the
transmitter's dump and the receiver's dump are different strings (the
transmitter prints one extra space per channel value), so the two
classes do not produce the same layout for equal buffer contents. -/
theorem C9_tx_rx_format_differ :
    txStr (List.replicate 513 0) ≠ rxStr (List.replicate 513 0) := by
  intro h
  have hlen := congrArg String.length h
  rw [txStr_length_eq (List.replicate 513 0) 512 (by rw [List.length_replicate])] at hlen
  omega

/-- C9 (amended): on a freshly created 512-channel universe both dumps
begin with `"Start code: 0"`; for every channel index other than the
start code, the entry starts a new row introduced by the channel index
as a 3-digit field when the index ≡ 1 (mod 20), carries the extra
double space when the index ≡ 1 (mod 5), appends the value as a 3-wide
field — with a leading space in the transmitter, without it in the
receiver — and appends the blank-line newline when the index ≡ 0
(mod 100); hence the two dumps differ for equal buffer contents. -/
theorem C9_format_layout :
    (∃ rest, txStr (List.replicate 513 0) = "Start code: 0" ++ rest)
  ∧ (∃ rest, rxStr (List.replicate 513 0) = "Start code: 0" ++ rest)
  ∧ (∀ (chans : List Nat) (chan : Nat) (acc : String), chan ≠ 0 →
      strChunkTX chans chan acc
        = acc ++ ((if chan % 20 = 1 then "\n" ++ pyFmt03 chan ++ ":" else "")
            ++ (if chan % 5 = 1 then "  " else "")
            ++ (" " ++ pyFmtW3 (chans.getD chan 0))
            ++ (if chan % 100 = 0 then "\n" else "")))
  ∧ (∀ (chans : List Nat) (chan : Nat) (acc : String), chan ≠ 0 →
      strChunkRX chans chan acc
        = acc ++ ((if chan % 20 = 1 then "\n" ++ pyFmt03 chan ++ ":" else "")
            ++ (if chan % 5 = 1 then "  " else "")
            ++ pyFmtW3 (chans.getD chan 0)
            ++ (if chan % 100 = 0 then "\n" else "")))
  ∧ txStr (List.replicate 513 0) ≠ rxStr (List.replicate 513 0) := by
  refine ⟨?_, ?_, ?_, ?_, ?_⟩
  · refine ⟨"\n" ++ (strJoin ((List.range' 1 512).map (pieceTX (List.replicate 513 0))) ++ "\n"), ?_⟩
    rw [txStr_decomp (List.replicate 513 0) 512 (by rw [List.length_replicate])]
    have hp : ("Start code: " ++ pyRepr ((List.replicate 513 0).getD 0 0) ++ "\n")
        = ("Start code: 0" ++ "\n") := rfl
    rw [hp, String.append_assoc, String.append_assoc]
  · refine ⟨"\n" ++ (strJoin ((List.range' 1 512).map (pieceRX (List.replicate 513 0))) ++ "\n"), ?_⟩
    rw [rxStr_decomp (List.replicate 513 0) 512 (by rw [List.length_replicate])]
    have hp : ("Start code: " ++ pyRepr ((List.replicate 513 0).getD 0 0) ++ "\n")
        = ("Start code: 0" ++ "\n") := rfl
    rw [hp, String.append_assoc, String.append_assoc]
  · intro chans chan acc h0
    rw [strChunkTX_ne_zero chans chan acc h0]
    unfold pieceTX
    simp only [beq_iff_eq]
  · intro chans chan acc h0
    rw [strChunkRX_ne_zero chans chan acc h0]
    unfold pieceRX
    simp only [beq_iff_eq]
  · intro h
    have hlen := congrArg String.length h
    rw [txStr_length_eq (List.replicate 513 0) 512 (by rw [List.length_replicate])] at hlen
    omega

theorem C9_format_layout_witness :
    ((21 : Nat) ≠ 0)
  ∧ strChunkTX [] 21 ""
      = "" ++ ((if 21 % 20 = 1 then "\n" ++ pyFmt03 21 ++ ":" else "")
          ++ (if 21 % 5 = 1 then "  " else "")
          ++ (" " ++ pyFmtW3 (([] : List Nat).getD 21 0))
          ++ (if 21 % 100 = 0 then "\n" else "")) :=
  ⟨by decide, C9_format_layout.2.2.1 [] 21 "" (by decide)⟩

end DMX
